import Mathlib

/-!
Shallow embedding of the Termux/Android clipboard backend
(src/src/platform/android.rs of ricardokl/arboard).

The backend shells out to two external utilities, `termux-clipboard-get`
and `termux-clipboard-set`.  Every interaction with the operating system
(spawning, killing, writing to stdin, waiting) is modelled by an explicit
environment value that records the outcome the OS would have produced, and
every operation additionally returns the list of interaction events it
performed, in order, so that properties such as "spawns no subprocess" or
"waits before returning" are statable.
-/

namespace Arboard

/-- Whether a byte is a UTF-8 continuation byte (0x80..0xBF). -/
def isCont (b : Nat) : Bool := 0x80 ≤ b && b ≤ 0xBF

/-- One step of the UTF-8 acceptor used by Rust's `String::from_utf8` and
`String::from_utf8_lossy` (std; modelled here byte for byte): given the first
byte and the remaining bytes, return the decoded scalar value and the rest of
the input on a well-formed sequence (rejecting overlong forms, surrogates and
values above 0x10FFFF), or `none` together with the input that remains after
skipping the maximal valid prefix of a sequence (the error length used by
lossy decoding). -/
def utf8Step (b : Nat) (rest : List Nat) : Option Char × List Nat :=
  if b ≤ 0x7F then (some (Char.ofNat b), rest)
  else if 0xC2 ≤ b && b ≤ 0xDF then
    match rest with
    | [] => (none, [])
    | b2 :: r2 =>
      if isCont b2 then (some (Char.ofNat ((b - 0xC0) * 0x40 + (b2 - 0x80))), r2)
      else (none, b2 :: r2)
  else if 0xE0 ≤ b && b ≤ 0xEF then
    match rest with
    | [] => (none, [])
    | b2 :: r2 =>
      if (if b = 0xE0 then 0xA0 else 0x80) ≤ b2 && b2 ≤ (if b = 0xED then 0x9F else 0xBF) then
        match r2 with
        | [] => (none, [])
        | b3 :: r3 =>
          if isCont b3 then
            (some (Char.ofNat ((b - 0xE0) * 0x1000 + (b2 - 0x80) * 0x40 + (b3 - 0x80))), r3)
          else (none, b3 :: r3)
      else (none, b2 :: r2)
  else if 0xF0 ≤ b && b ≤ 0xF4 then
    match rest with
    | [] => (none, [])
    | b2 :: r2 =>
      if (if b = 0xF0 then 0x90 else 0x80) ≤ b2 && b2 ≤ (if b = 0xF4 then 0x8F else 0xBF) then
        match r2 with
        | [] => (none, [])
        | b3 :: r3 =>
          if isCont b3 then
            match r3 with
            | [] => (none, [])
            | b4 :: r4 =>
              if isCont b4 then
                (some (Char.ofNat
                    ((b - 0xF0) * 0x40000 + (b2 - 0x80) * 0x1000 + (b3 - 0x80) * 0x40
                      + (b4 - 0x80))), r4)
              else (none, b4 :: r4)
          else (none, b3 :: r3)
      else (none, b2 :: r2)
  else (none, rest)

/-- Strict UTF-8 decoding with fuel (each step consumes at least the first
byte, so `fuel = length` always suffices; the fuel only makes the recursion
structural). -/
def utf8DecodeAux : Nat → List Nat → Option (List Char)
  | _, [] => some []
  | 0, _ :: _ => none
  | fuel + 1, b :: rest =>
    match utf8Step b rest with
    | (some c, rem) => (utf8DecodeAux fuel rem).map (c :: ·)
    | (none, _) => none

/-- Model of Rust's `String::from_utf8` on a byte list: the decoded string
when the bytes are valid UTF-8, `none` otherwise. -/
def fromUtf8 (bs : List Nat) : Option String :=
  (utf8DecodeAux bs.length bs).map fun cs => String.mk cs

/-- Lossy UTF-8 decoding with fuel, replacing each maximal invalid
subsequence by U+FFFD. -/
def utf8LossyAux : Nat → List Nat → List Char
  | _, [] => []
  | 0, _ :: _ => []
  | fuel + 1, b :: rest =>
    match utf8Step b rest with
    | (some c, rem) => c :: utf8LossyAux fuel rem
    | (none, rem) => Char.ofNat 0xFFFD :: utf8LossyAux fuel rem

/-- Model of Rust's `String::from_utf8_lossy` on a byte list. -/
def fromUtf8Lossy (bs : List Nat) : String :=
  String.mk (utf8LossyAux bs.length bs)

/-- Modelled from the spec: the error type lives in `src/common.rs`, which is
not part of the staged sources. Its variants follow the spec's error
taxonomy table (section 7: BackendUnavailable, Unknown(detail),
ConversionFailure, BackendUnsupported) together with the constructors the
staged code invokes: `Error::unknown(message)` builds the Unknown kind
(section 7 maps every OS-level spawn/write/wait failure, which the code
reports through `Error::unknown`, to Unknown(detail)), `Error::ConversionFailure`
is the ConversionFailure kind, and `Error::ClipboardNotSupported` is the kind
the spec calls BackendUnsupported. -/
inductive Error where
  | ClipboardNotSupported
  | ConversionFailure
  | BackendUnavailable (description : String)
  | Unknown (description : String)
deriving DecidableEq

/-- Model of `Error::unknown`: wraps a message into the Unknown kind. -/
def Error.unknown (description : String) : Error := Error.Unknown description

/-- Whether an error is of the BackendUnavailable kind. -/
def Error.isBackendUnavailable : Error → Bool
  | Error.BackendUnavailable _ => true
  | _ => false

/-- One interaction with the operating system, recorded in order by each
operation: spawning (or attempting to spawn) a command, killing a spawned
child, writing data to a child's stdin, and waiting for a child to exit. -/
inductive Event where
  | spawn (cmd : String)
  | kill (cmd : String)
  | writeStdin (cmd : String) (data : String)
  | wait (cmd : String)
deriving DecidableEq

/-- Name of the command built by `termux_get()` (under `cfg!(test)` the same
contract is served by a fixture script; only the command's identity matters
to the embedding). -/
def termuxGetCmd : String := "termux-clipboard-get"

/-- Name of the command built by `termux_set()`. -/
def termuxSetCmd : String := "termux-clipboard-set"

/-- Why a spawn failed: `std::io::ErrorKind::NotFound` (the executable is
absent) versus any other OS error, carrying its display text. -/
inductive SpawnErr where
  | notFound
  | other (msg : String)
deriving DecidableEq

/-- Outcome the OS produces for one availability probe: the spawn fails, or
it succeeds and the subsequent `child.kill()` either succeeds (`ok none`) or
fails with the given message (`ok (some msg)`). -/
inductive SpawnOutcome where
  | fail (e : SpawnErr)
  | ok (killErr : Option String)
deriving DecidableEq

/-- Environment for `Clipboard::new`: the outcomes of probing each utility. -/
structure ProbeEnv where
  getSpawn : SpawnOutcome
  setSpawn : SpawnOutcome
deriving DecidableEq

/-- The session handle (`pub struct Clipboard;`): no fields. -/
structure Clipboard
deriving DecidableEq

/-- Embedding of `Clipboard::new`: probe `termux-clipboard-get` (kill the
child on success, mapping a kill failure through `Error::unknown`), then
probe `termux-clipboard-set` the same way, and return the session only when
both probes passed. A spawn failure with kind NotFound yields the
"command not found" message, any other spawn failure the
"Error while testing" message. -/
def Clipboard.new (env : ProbeEnv) : Except Error Clipboard × List Event :=
  match env.getSpawn with
  | SpawnOutcome.fail SpawnErr.notFound =>
    (Except.error (Error.unknown "'termux-clipboard-get' command not found. Please install Termux:API."),
     [Event.spawn termuxGetCmd])
  | SpawnOutcome.fail (SpawnErr.other msg) =>
    (Except.error (Error.unknown ("Error while testing for 'termux-clipboard-get': " ++ msg)),
     [Event.spawn termuxGetCmd])
  | SpawnOutcome.ok (some msg) =>
    (Except.error (Error.unknown ("Failed to kill test process for 'termux-clipboard-get': " ++ msg)),
     [Event.spawn termuxGetCmd, Event.kill termuxGetCmd])
  | SpawnOutcome.ok none =>
    match env.setSpawn with
    | SpawnOutcome.fail SpawnErr.notFound =>
      (Except.error (Error.unknown "'termux-clipboard-set' command not found. Please install Termux:API."),
       [Event.spawn termuxGetCmd, Event.kill termuxGetCmd, Event.spawn termuxSetCmd])
    | SpawnOutcome.fail (SpawnErr.other msg) =>
      (Except.error (Error.unknown ("Error while testing for 'termux-clipboard-set': " ++ msg)),
       [Event.spawn termuxGetCmd, Event.kill termuxGetCmd, Event.spawn termuxSetCmd])
    | SpawnOutcome.ok (some msg) =>
      (Except.error (Error.unknown ("Failed to kill test process for 'termux-clipboard-set': " ++ msg)),
       [Event.spawn termuxGetCmd, Event.kill termuxGetCmd, Event.spawn termuxSetCmd,
        Event.kill termuxSetCmd])
    | SpawnOutcome.ok none =>
      (Except.ok ⟨⟩,
       [Event.spawn termuxGetCmd, Event.kill termuxGetCmd, Event.spawn termuxSetCmd,
        Event.kill termuxSetCmd])

/-- Captured result of `termux_get().output()`: exit status plus the bytes
collected from the child's standard output and standard error. -/
structure Output where
  statusSuccess : Bool
  stdout : List Nat
  stderr : List Nat
deriving DecidableEq

/-- Environment for `Get::text`: `Command::output` either fails with an OS
error (its display text) or returns the captured `Output`. -/
inductive GetOutcome where
  | fail (msg : String)
  | ok (output : Output)
deriving DecidableEq

/-- Embedding of `Get::text`: run the get utility to completion; an execution
failure and a non-success exit status are reported through `Error::unknown`
(the latter quoting the lossily decoded stderr), and on success the stdout
bytes are decoded strictly as UTF-8, `Error::ConversionFailure` on failure.
`Command::output` waits for the child, hence the wait event whenever the
spawn succeeded. -/
def Get.text (env : GetOutcome) : Except Error String × List Event :=
  match env with
  | GetOutcome.fail e =>
    (Except.error (Error.unknown ("Failed to execute 'termux-clipboard-get': " ++ e)),
     [Event.spawn termuxGetCmd])
  | GetOutcome.ok output =>
    if !output.statusSuccess then
      (Except.error (Error.unknown ("'termux-clipboard-get' exited with non-zero status: "
          ++ fromUtf8Lossy output.stderr)),
       [Event.spawn termuxGetCmd, Event.wait termuxGetCmd])
    else
      match fromUtf8 output.stdout with
      | some s => (Except.ok s, [Event.spawn termuxGetCmd, Event.wait termuxGetCmd])
      | none =>
        (Except.error Error.ConversionFailure,
         [Event.spawn termuxGetCmd, Event.wait termuxGetCmd])

/-- Modelled from the spec: `ImageData` is the richer-format image type
defined elsewhere (out of scope, section 1); only its existence matters
here, since this backend never produces or consumes one. -/
structure ImageData where
  width : Nat
  height : Nat
  bytes : List Nat
deriving DecidableEq

/-- Embedding of `Get::html`: unconditionally `ClipboardNotSupported`, no OS
interaction. -/
def Get.html : Except Error String × List Event :=
  (Except.error Error.ClipboardNotSupported, [])

/-- Embedding of `Get::image`. -/
def Get.image : Except Error ImageData × List Event :=
  (Except.error Error.ClipboardNotSupported, [])

/-- Embedding of `Get::file_list` (paths modelled as strings). -/
def Get.file_list : Except Error (List String) × List Event :=
  (Except.error Error.ClipboardNotSupported, [])

/-- Outcome of `write_all` on the child's stdin. -/
inductive WriteOutcome where
  | ok
  | fail (msg : String)
deriving DecidableEq

/-- Outcome of `process.wait()`: an OS failure with its display text, or the
exit status (`success` as reported by `status.success()`). -/
inductive WaitResult where
  | ok (success : Bool)
  | fail (msg : String)
deriving DecidableEq

/-- The spawned set child as the environment presents it: whether
`process.stdin.take()` yields a stream (and how writing to it would go), and
how waiting for the child would go. -/
structure SetChild where
  stdin : Option WriteOutcome
  waitResult : WaitResult
deriving DecidableEq

/-- Outcome of spawning the set utility. -/
inductive SetSpawn where
  | fail (msg : String)
  | ok (child : SetChild)
deriving DecidableEq

/-- Environment for `Set::text`. -/
structure SetEnv where
  spawn : SetSpawn
deriving DecidableEq

/-- The tail of `Set::text` after the write step: wait for the child
(`Error::unknown` on an OS failure) and report a non-success exit status
through `Error::unknown` with the fixed message. -/
def Set.waitStep : WaitResult → Except Error Unit
  | WaitResult.fail e =>
    Except.error (Error.unknown ("Failed to wait for 'termux-clipboard-set': " ++ e))
  | WaitResult.ok success =>
    if !success then
      Except.error (Error.unknown "'termux-clipboard-set' exited with non-zero status.")
    else Except.ok ()

/-- Embedding of `Set::text`: spawn the set utility with piped stdin
(`Error::unknown` on failure); if `stdin.take()` yields the stream, write the
whole text to it, returning the `Error::unknown` write error at once when the
write fails (the `?` operator returns before `wait` runs); if the stream is
unavailable the write is skipped without error; then wait for the child and
check its exit status (`Set.waitStep`). -/
def Set.text (env : SetEnv) (text : String) : Except Error Unit × List Event :=
  match env.spawn with
  | SetSpawn.fail e =>
    (Except.error (Error.unknown ("Failed to execute 'termux-clipboard-set': " ++ e)),
     [Event.spawn termuxSetCmd])
  | SetSpawn.ok child =>
    match child.stdin with
    | some (WriteOutcome.fail e) =>
      (Except.error (Error.unknown ("Failed to write to stdin of 'termux-clipboard-set': " ++ e)),
       [Event.spawn termuxSetCmd, Event.writeStdin termuxSetCmd text])
    | some WriteOutcome.ok =>
      (Set.waitStep child.waitResult,
       [Event.spawn termuxSetCmd, Event.writeStdin termuxSetCmd text, Event.wait termuxSetCmd])
    | none =>
      (Set.waitStep child.waitResult,
       [Event.spawn termuxSetCmd, Event.wait termuxSetCmd])

/-- Embedding of `Set::html`: the content is discarded, no OS interaction. -/
def Set.html (_html : String) (_altText : Option String) : Except Error Unit × List Event :=
  (Except.error Error.ClipboardNotSupported, [])

/-- Embedding of `Set::image`. -/
def Set.image (_image : ImageData) : Except Error Unit × List Event :=
  (Except.error Error.ClipboardNotSupported, [])

/-- Embedding of `Set::file_list`. -/
def Set.file_list (_fileList : List String) : Except Error Unit × List Event :=
  (Except.error Error.ClipboardNotSupported, [])

/-- Embedding of `Clear::clear`: `Set::new(self.clipboard).text(Cow::from(""))`. -/
def Clear.clear (env : SetEnv) : Except Error Unit × List Event :=
  Set.text env ""

/-- The Clearer as the spec words it (section 4.4): performing a Write of the
empty string through the Writer's text path. -/
def clearSpec (env : SetEnv) : Except Error Unit × List Event :=
  Set.text env ""

/-- Whether one operation needs shared or exclusive access to the session. -/
inductive AccessMode where
  | shared
  | exclusive
deriving DecidableEq

/-- Access the `clipboard` parameter of `Get::new` demands, read from its
signature `fn new(clipboard: &'clipboard mut Clipboard)`: a mutable, hence
exclusive, borrow. -/
def Get.newClipboardAccess : AccessMode := AccessMode.exclusive

/-- Access the field `_clipboard: &'clipboard Clipboard` of `Get` holds: a
shared borrow. -/
def Get.fieldClipboardAccess : AccessMode := AccessMode.shared

/-- Access the `clipboard` parameter of `Set::new` demands
(`&'clipboard mut Clipboard`). -/
def Set.newClipboardAccess : AccessMode := AccessMode.exclusive

/-- Access the field `_clipboard: &'clipboard mut Clipboard` of `Set` holds. -/
def Set.fieldClipboardAccess : AccessMode := AccessMode.exclusive

/-- Access the `clipboard` parameter of `Clear::new` demands
(`&'clipboard mut Clipboard`). -/
def Clear.newClipboardAccess : AccessMode := AccessMode.exclusive

/-- Access the field `clipboard: &'clipboard mut Clipboard` of `Clear` holds. -/
def Clear.fieldClipboardAccess : AccessMode := AccessMode.exclusive

/-- Whether `stdin.take()` yielded a stream whose write would fail. -/
def stdinWriteFails : Option WriteOutcome → Bool
  | some (WriteOutcome.fail _) => true
  | _ => false

/-- C1, counterexample to the claim as stated: at a probe environment where
the get utility is absent (spawn fails with NotFound), session construction
fails with an error of the Unknown kind, not of the BackendUnavailable kind
the claim names. -/
theorem c1_counterexample :
    (Clipboard.new ⟨SpawnOutcome.fail SpawnErr.notFound, SpawnOutcome.ok none⟩).1 =
      Except.error
        (Error.Unknown "'termux-clipboard-get' command not found. Please install Termux:API.")
    ∧ Error.isBackendUnavailable
        (Error.Unknown "'termux-clipboard-get' command not found. Please install Termux:API.")
      = false :=
  ⟨rfl, rfl⟩

/-- C1 (amended): for every attempt to construct a session, if spawning
either required external utility fails because the executable cannot be
found, construction fails with an Unknown error naming the missing utility
and instructing installation of the companion app, and no session is
returned. -/
theorem c1_not_found_unknown (g s : SpawnOutcome) :
    (g = SpawnOutcome.fail SpawnErr.notFound →
      (Clipboard.new ⟨g, s⟩).1 =
        Except.error
          (Error.unknown "'termux-clipboard-get' command not found. Please install Termux:API."))
    ∧ (g = SpawnOutcome.ok none → s = SpawnOutcome.fail SpawnErr.notFound →
      (Clipboard.new ⟨g, s⟩).1 =
        Except.error
          (Error.unknown "'termux-clipboard-set' command not found. Please install Termux:API.")) := by
  constructor
  · intro h
    subst h
    rfl
  · intro h1 h2
    subst h1
    subst h2
    rfl

/-- C1, witness: the amended theorem evaluated with the set utility absent. -/
theorem c1_witness :
    (Clipboard.new ⟨SpawnOutcome.ok none, SpawnOutcome.fail SpawnErr.notFound⟩).1 =
      Except.error
        (Error.unknown "'termux-clipboard-set' command not found. Please install Termux:API.") :=
  (c1_not_found_unknown (SpawnOutcome.ok none) (SpawnOutcome.fail SpawnErr.notFound)).2 rfl rfl

/-- C2, counterexample to the claim as stated: in an environment where the
spawn succeeds but the write to the child's stdin fails, the writer returns
the Unknown write error at once and no wait event occurs, so it does not
wait for the subprocess to exit regardless of the write outcome. -/
theorem c2_counterexample :
    (Set.text ⟨SetSpawn.ok ⟨some (WriteOutcome.fail "broken pipe"), WaitResult.ok true⟩⟩ "x").1 =
      Except.error
        (Error.unknown "Failed to write to stdin of 'termux-clipboard-set': broken pipe")
    ∧ Event.wait termuxSetCmd ∉
      (Set.text ⟨SetSpawn.ok ⟨some (WriteOutcome.fail "broken pipe"), WaitResult.ok true⟩⟩ "x").2 :=
  ⟨rfl, by decide⟩

/-- C2 (amended): for every text write whose spawn succeeds, the writer
waits for the subprocess to exit whenever the write to the input stream
succeeded or was skipped, and the result is then `Set.waitStep` of the wait
outcome, a wait failure in particular being reported as an Unknown error; if
the write failed, it returns the Unknown write error immediately without
waiting. -/
theorem c2_wait_discipline (child : SetChild) (text : String) :
    (stdinWriteFails child.stdin = false →
      Event.wait termuxSetCmd ∈ (Set.text ⟨SetSpawn.ok child⟩ text).2
      ∧ (Set.text ⟨SetSpawn.ok child⟩ text).1 = Set.waitStep child.waitResult)
    ∧ (∀ e, child.stdin = some (WriteOutcome.fail e) →
      (Set.text ⟨SetSpawn.ok child⟩ text).1 =
        Except.error
          (Error.unknown ("Failed to write to stdin of 'termux-clipboard-set': " ++ e))
      ∧ Event.wait termuxSetCmd ∉ (Set.text ⟨SetSpawn.ok child⟩ text).2)
    ∧ (∀ m, stdinWriteFails child.stdin = false → child.waitResult = WaitResult.fail m →
      (Set.text ⟨SetSpawn.ok child⟩ text).1 =
        Except.error (Error.unknown ("Failed to wait for 'termux-clipboard-set': " ++ m))) := by
  obtain ⟨stdin, wr⟩ := child
  refine ⟨?_, ?_, ?_⟩
  · intro h
    rcases stdin with _ | wo
    · exact ⟨by simp [Set.text], rfl⟩
    · rcases wo with _ | e
      · exact ⟨by simp [Set.text], rfl⟩
      · exact absurd h (by simp [stdinWriteFails])
  · intro e he
    rcases stdin with _ | wo
    · cases he
    · rcases wo with _ | e2
      · cases he
      · cases he
        exact ⟨rfl, by simp [Set.text]⟩
  · intro m h hw
    subst hw
    rcases stdin with _ | wo
    · rfl
    · rcases wo with _ | e2
      · rfl
      · simp [stdinWriteFails] at h

/-- C2, witness: with the stream available and the write succeeding, the
wait event occurs. -/
theorem c2_witness :
    Event.wait termuxSetCmd ∈
      (Set.text ⟨SetSpawn.ok ⟨some WriteOutcome.ok, WaitResult.ok true⟩⟩ "abc").2 :=
  ((c2_wait_discipline ⟨some WriteOutcome.ok, WaitResult.ok true⟩ "abc").1 rfl).1

/-- C3: for every environment the clear operation is the Writer's text path
applied to the empty string, returning the very same result and performing
the very same OS interactions; in particular it coincides with the spec's
description of the Clearer. -/
theorem c3_clear_delegates (env : SetEnv) :
    Clear.clear env = Set.text env "" ∧ Clear.clear env = clearSpec env :=
  ⟨rfl, rfl⟩

/-- C4: for every read where the get utility spawns, exits successfully and
its captured standard output is valid UTF-8, the reader returns the decoded
text verbatim. -/
theorem c4_read_verbatim (out : Output) (s : String)
    (hs : out.statusSuccess = true) (hd : fromUtf8 out.stdout = some s) :
    (Get.text (GetOutcome.ok out)).1 = Except.ok s := by
  simp [Get.text, hs, hd]

/-- C4, witness: the fixture bytes of "hello from mock clipboard" followed
by a trailing newline are returned verbatim, newline included. -/
theorem c4_witness :
    (Get.text (GetOutcome.ok
        ⟨true,
         [104, 101, 108, 108, 111, 32, 102, 114, 111, 109, 32, 109, 111, 99, 107, 32,
          99, 108, 105, 112, 98, 111, 97, 114, 100, 10],
         []⟩)).1 =
      Except.ok "hello from mock clipboard\n" :=
  c4_read_verbatim
    ⟨true,
     [104, 101, 108, 108, 111, 32, 102, 114, 111, 109, 32, 109, 111, 99, 107, 32,
      99, 108, 105, 112, 98, 111, 97, 114, 100, 10],
     []⟩
    "hello from mock clipboard\n" rfl rfl

/-- C5: for every read where the subprocess exits successfully but its
captured standard output is not valid UTF-8, the reader fails with the
ConversionFailure kind, which carries no message and is distinct from
Unknown. -/
theorem c5_conversion_failure (out : Output)
    (hs : out.statusSuccess = true) (hd : fromUtf8 out.stdout = none) :
    (Get.text (GetOutcome.ok out)).1 = Except.error Error.ConversionFailure := by
  simp [Get.text, hs, hd]

/-- C5, witness: the byte 0xFF is not valid UTF-8 and yields
ConversionFailure. -/
theorem c5_witness :
    (Get.text (GetOutcome.ok ⟨true, [255], []⟩)).1 =
      Except.error Error.ConversionFailure :=
  c5_conversion_failure ⟨true, [255], []⟩ rfl rfl

/-- C6: every HTML, image or file-list read or write fails with the
ClipboardNotSupported kind (the spec's BackendUnsupported), performs no OS
interaction at all (in particular spawns no subprocess), and on write the
result is the same whatever content is supplied. -/
theorem c6_unsupported_no_spawn :
    Get.html = (Except.error Error.ClipboardNotSupported, [])
    ∧ Get.image = (Except.error Error.ClipboardNotSupported, [])
    ∧ Get.file_list = (Except.error Error.ClipboardNotSupported, [])
    ∧ (∀ h a, Set.html h a = (Except.error Error.ClipboardNotSupported, []))
    ∧ (∀ img, Set.image img = (Except.error Error.ClipboardNotSupported, []))
    ∧ (∀ fl, Set.file_list fl = (Except.error Error.ClipboardNotSupported, [])) :=
  ⟨rfl, rfl, rfl, fun _ _ => rfl, fun _ => rfl, fun _ => rfl⟩

/-- The trace of `Clipboard::new` opens with the probe of the get utility. -/
lemma clipboard_new_head (g s : SpawnOutcome) :
    (Clipboard.new ⟨g, s⟩).2.head? = some (Event.spawn termuxGetCmd) := by
  rcases g with e | k
  · rcases e with _ | m <;> rfl
  · rcases k with _ | m
    · rcases s with e | k2
      · rcases e with _ | m2 <;> rfl
      · rcases k2 with _ | m2 <;> rfl
    · rfl

/-- The set utility is probed exactly when the get probe passed (spawn
succeeded and the test child was killed without error). -/
lemma clipboard_new_set_spawned (g s : SpawnOutcome) :
    Event.spawn termuxSetCmd ∈ (Clipboard.new ⟨g, s⟩).2 ↔ g = SpawnOutcome.ok none := by
  rcases g with e | k
  · rcases e with _ | m <;> simp [Clipboard.new, termuxGetCmd, termuxSetCmd]
  · rcases k with _ | m
    · rcases s with e | k2
      · rcases e with _ | m2 <;> simp [Clipboard.new, termuxGetCmd, termuxSetCmd]
      · rcases k2 with _ | m2 <;> simp [Clipboard.new, termuxGetCmd, termuxSetCmd]
    · simp [Clipboard.new, termuxGetCmd, termuxSetCmd]

/-- When the get spawn succeeds, the kill of the test child immediately
follows the spawn in the trace. -/
lemma clipboard_new_kill_follows (g s : SpawnOutcome) (k : Option String)
    (hk : g = SpawnOutcome.ok k) :
    (Clipboard.new ⟨g, s⟩).2.take 2 = [Event.spawn termuxGetCmd, Event.kill termuxGetCmd] := by
  subst hk
  rcases k with _ | m
  · rcases s with e | k2
    · rcases e with _ | m2 <;> rfl
    · rcases k2 with _ | m2 <;> rfl
  · rfl

/-- Construction succeeds exactly when both probes passed. -/
lemma clipboard_new_ok_iff (g s : SpawnOutcome) :
    (Clipboard.new ⟨g, s⟩).1 = Except.ok ⟨⟩ ↔
      (g = SpawnOutcome.ok none ∧ s = SpawnOutcome.ok none) := by
  rcases g with e | k
  · rcases e with _ | m <;> simp [Clipboard.new]
  · rcases k with _ | m
    · rcases s with e | k2
      · rcases e with _ | m2 <;> simp [Clipboard.new]
      · rcases k2 with _ | m2 <;> simp [Clipboard.new]
    · simp [Clipboard.new]

/-- C7: session construction probes the get utility first (the trace opens
with its spawn); the set utility is probed exactly when the get probe
passed; a successful probe spawn is immediately followed by the kill of the
test child; a kill failure on either probe is propagated as an Unknown
error; and construction succeeds exactly when both probes passed, so either
probe's failure aborts it. -/
theorem c7_probe_protocol (g s : SpawnOutcome) :
    (Clipboard.new ⟨g, s⟩).2.head? = some (Event.spawn termuxGetCmd)
    ∧ (Event.spawn termuxSetCmd ∈ (Clipboard.new ⟨g, s⟩).2 ↔ g = SpawnOutcome.ok none)
    ∧ (∀ k, g = SpawnOutcome.ok k →
      (Clipboard.new ⟨g, s⟩).2.take 2 = [Event.spawn termuxGetCmd, Event.kill termuxGetCmd])
    ∧ (∀ m, g = SpawnOutcome.ok (some m) →
      (Clipboard.new ⟨g, s⟩).1 =
        Except.error
          (Error.unknown ("Failed to kill test process for 'termux-clipboard-get': " ++ m)))
    ∧ (∀ m, g = SpawnOutcome.ok none → s = SpawnOutcome.ok (some m) →
      (Clipboard.new ⟨g, s⟩).1 =
        Except.error
          (Error.unknown ("Failed to kill test process for 'termux-clipboard-set': " ++ m)))
    ∧ ((Clipboard.new ⟨g, s⟩).1 = Except.ok ⟨⟩ ↔
      (g = SpawnOutcome.ok none ∧ s = SpawnOutcome.ok none)) :=
  ⟨clipboard_new_head g s,
   clipboard_new_set_spawned g s,
   fun k hk => clipboard_new_kill_follows g s k hk,
   fun m hm => by subst hm; rfl,
   fun m hg hs => by subst hg; subst hs; rfl,
   clipboard_new_ok_iff g s⟩

/-- C7, witness: a kill failure on the get probe is propagated as Unknown. -/
theorem c7_witness :
    (Clipboard.new ⟨SpawnOutcome.ok (some "kill failed"), SpawnOutcome.ok none⟩).1 =
      Except.error
        (Error.unknown "Failed to kill test process for 'termux-clipboard-get': kill failed") :=
  (c7_probe_protocol (SpawnOutcome.ok (some "kill failed")) (SpawnOutcome.ok none)).2.2.2.1
    "kill failed" rfl

/-- C8: for every text write where the spawned child's input stream is
unavailable, the write is skipped without producing an error (no write event
occurs and no write error is possible), the writer still waits for process
exit, and success or failure is then determined solely by the wait outcome:
the result is `Set.waitStep` of it, succeeding exactly when the child exited
with success status. -/
theorem c8_stdin_unavailable (wr : WaitResult) (text : String) :
    (Set.text ⟨SetSpawn.ok ⟨none, wr⟩⟩ text).1 = Set.waitStep wr
    ∧ (Set.text ⟨SetSpawn.ok ⟨none, wr⟩⟩ text).2 =
      [Event.spawn termuxSetCmd, Event.wait termuxSetCmd]
    ∧ (∀ d, Event.writeStdin termuxSetCmd d ∉ (Set.text ⟨SetSpawn.ok ⟨none, wr⟩⟩ text).2)
    ∧ ((Set.text ⟨SetSpawn.ok ⟨none, wr⟩⟩ text).1 = Except.ok () ↔ wr = WaitResult.ok true) := by
  refine ⟨rfl, rfl, ?_, ?_⟩
  · intro d
    simp [Set.text]
  · rcases wr with success | m
    · cases success <;> simp [Set.text, Set.waitStep]
    · simp [Set.text, Set.waitStep]

/-- C9, counterexample to the claim as stated: the constructor of the read
operation demands exclusive (mutable) access to the session, not the shared
access the claim asserts. -/
theorem c9_counterexample : Get.newClipboardAccess ≠ AccessMode.shared := by
  decide

/-- C9 (amended): write and clear require exclusive access to the session,
and the read operation's constructor also takes an exclusive (mutable)
borrow — only the reference the reader then stores internally is shared — so
even readers cannot be constructed from the same session without exclusive
borrowing. -/
theorem c9_access_modes :
    Get.newClipboardAccess = AccessMode.exclusive
    ∧ Get.fieldClipboardAccess = AccessMode.shared
    ∧ Set.newClipboardAccess = AccessMode.exclusive
    ∧ Set.fieldClipboardAccess = AccessMode.exclusive
    ∧ Clear.newClipboardAccess = AccessMode.exclusive
    ∧ Clear.fieldClipboardAccess = AccessMode.exclusive := by
  decide

/-- C10: the text read succeeds exactly when the get subprocess runs, exits
with success status and its standard output is valid UTF-8; every failure is
of kind Unknown or ConversionFailure (never ClipboardNotSupported, never a
BackendUnavailable kind), with an execution failure reported as Unknown
naming the utility, and a UTF-8 decoding failure as ConversionFailure. -/
theorem c10_read_outcome (env : GetOutcome) :
    ((∃ s, (Get.text env).1 = Except.ok s) ↔
      (∃ out, env = GetOutcome.ok out ∧ out.statusSuccess = true
        ∧ (fromUtf8 out.stdout).isSome = true))
    ∧ (∀ e, (Get.text env).1 = Except.error e →
      ((∃ d, e = Error.Unknown d) ∨ e = Error.ConversionFailure))
    ∧ (∀ m, env = GetOutcome.fail m →
      (Get.text env).1 =
        Except.error (Error.unknown ("Failed to execute 'termux-clipboard-get': " ++ m)))
    ∧ (∀ out, env = GetOutcome.ok out → out.statusSuccess = true →
      fromUtf8 out.stdout = none →
      (Get.text env).1 = Except.error Error.ConversionFailure) := by
  rcases env with m | out
  · refine ⟨by simp [Get.text], ?_, ?_, ?_⟩
    · intro e he
      injection he with h
      exact Or.inl ⟨_, h.symm⟩
    · intro m2 hm
      cases hm
      rfl
    · intro out hout
      cases hout
  · obtain ⟨st, so, se⟩ := out
    cases st
    · refine ⟨by simp [Get.text], ?_, ?_, ?_⟩
      · intro e he
        injection he with h
        exact Or.inl ⟨_, h.symm⟩
      · intro m2 hm
        cases hm
      · intro out2 hout hsucc hdec
        cases hout
        cases hsucc
    · rcases hfu : fromUtf8 so with _ | s
      · refine ⟨by simp [Get.text, hfu], ?_, ?_, ?_⟩
        · intro e he
          simp [Get.text, hfu] at he
          exact Or.inr he.symm
        · intro m2 hm
          cases hm
        · intro out2 hout hsucc hdec
          cases hout
          simp [Get.text, hfu]
      · refine ⟨by simp [Get.text, hfu], ?_, ?_, ?_⟩
        · intro e he
          simp [Get.text, hfu] at he
        · intro m2 hm
          cases hm
        · intro out2 hout hsucc hdec
          cases hout
          rw [hfu] at hdec
          cases hdec

/-- C10, witness: an execution failure surfaces as the Unknown kind. -/
theorem c10_witness :
    (∃ d, Error.Unknown "Failed to execute 'termux-clipboard-get': no permission"
        = Error.Unknown d)
    ∨ Error.Unknown "Failed to execute 'termux-clipboard-get': no permission"
        = Error.ConversionFailure :=
  (c10_read_outcome (GetOutcome.fail "no permission")).2.1
    (Error.Unknown "Failed to execute 'termux-clipboard-get': no permission") rfl

end Arboard
